import Mathlib

/-!
Shallow embedding of the epd2in13_lillygo panel driver
(src/epd2in13_lillygo/mod.rs): the driver state, the bus-event trace each
operation emits through the display interface, and theorems about those
traces.

The transport framer (DisplayInterface), the command / colour / refresh-
profile enumerations, the deep-sleep enumeration and the waveform-table
constants live in sibling modules that are not part of this source tree;
where needed they are modelled from the specification and marked as such.
All payload bytes below are the literal bytes the source hardcodes.
-/

set_option maxRecDepth 8000

namespace EpdWaveshare

/-- Modelled from the spec: bi-level display colour (color.rs is outside this
source tree); the source only names `Color::White` as the default background. -/
inductive Color where
  | Black
  | White
  deriving DecidableEq, Repr

/-- Modelled from the spec: refresh profile, enumerated Full or Quick
(traits.rs is outside this source tree). -/
inductive RefreshLut where
  | Full
  | Quick
  deriving DecidableEq, Repr

/-- Modelled from the spec: enumerated deep-sleep depth, one mode retaining
RAM and one not (command.rs is outside this source tree); the source
constructs `DeepSleepMode::Mode1` as the default. -/
inductive DeepSleepMode where
  | Normal
  | Mode1
  deriving DecidableEq, Repr

/-- Modelled from the spec: the closed command vocabulary (command.rs is
outside this source tree); constructor names follow the variants the source
uses. Only the opcode identity matters to the driver logic modelled here. -/
inductive Command where
  | SwReset
  | DriverOutputControl
  | DataEntryModeSetting
  | SetRamXAddressStartEndPosition
  | SetRamYAddressStartEndPosition
  | SetRamXAddressCounter
  | SetRamYAddressCounter
  | BorderWaveformControl
  | DisplayUpdateControl1
  | DisplayUpdateControl2
  | TemperatureSensorControlRead
  | MasterActivation
  | WriteRam
  | WriteLutRegister
  | DeepSleepMode
  deriving DecidableEq, Repr

/-- Driver-output configuration: scan flags plus gate count (the source's
set_driver_output receives it but hardcodes the payload bytes). -/
structure DriverOutput where
  scan_is_linear : Bool
  scan_g0_is_first : Bool
  scan_dir_incr : Bool
  width : Nat
  deriving DecidableEq, Repr

/-- Modelled from the spec: X/Y auto-advance selection for the RAM counters;
only the variant the source passes is modelled, since the source ignores it. -/
inductive DataEntryModeIncr where
  | XDecrYIncr
  deriving DecidableEq, Repr

/-- Modelled from the spec: counter-priority direction for data entry; only
the variant the source passes is modelled, since the source ignores it. -/
inductive DataEntryModeDir where
  | XDir
  deriving DecidableEq, Repr

/-- Modelled from the spec: VBD source sub-field of the border waveform. -/
inductive BorderWaveFormVbd where
  | Gs
  deriving DecidableEq, Repr

/-- Modelled from the spec: fixed-level sub-field of the border waveform. -/
inductive BorderWaveFormFixLevel where
  | Vss
  deriving DecidableEq, Repr

/-- Modelled from the spec: GS-transition sub-field of the border waveform. -/
inductive BorderWaveFormGs where
  | Lut3
  deriving DecidableEq, Repr

/-- Border-waveform configuration, three enumerated sub-fields (the source's
set_border_waveform receives it but hardcodes the payload byte). -/
structure BorderWaveForm where
  vbd : BorderWaveFormVbd
  fix_level : BorderWaveFormFixLevel
  gs_trans : BorderWaveFormGs
  deriving DecidableEq, Repr

/-- Modelled from the spec: builder-style accumulation of clock/analog/display
enable and disable flags for display-update-control-2; the source's encoder
ignores the built value and hardcodes the payload byte. -/
structure DisplayUpdateControl2 where
  enableClock : Bool := false
  enableAnalog : Bool := false
  showDisplay : Bool := false
  disableAnalog : Bool := false
  disableClock : Bool := false
  deriving DecidableEq, Repr

def DisplayUpdateControl2.new : DisplayUpdateControl2 := {}

def DisplayUpdateControl2.enable_clock (v : DisplayUpdateControl2) : DisplayUpdateControl2 :=
  { v with enableClock := true }

def DisplayUpdateControl2.enable_analog (v : DisplayUpdateControl2) : DisplayUpdateControl2 :=
  { v with enableAnalog := true }

def DisplayUpdateControl2.display (v : DisplayUpdateControl2) : DisplayUpdateControl2 :=
  { v with showDisplay := true }

def DisplayUpdateControl2.disable_analog (v : DisplayUpdateControl2) : DisplayUpdateControl2 :=
  { v with disableAnalog := true }

def DisplayUpdateControl2.disable_clock (v : DisplayUpdateControl2) : DisplayUpdateControl2 :=
  { v with disableClock := true }

/-- Observable bus-level event emitted through the display interface.
Modelled from the spec: a reset pulse, a busy poll with its polarity flag, a
command byte, or a data payload. -/
inductive Event where
  | reset (initialDelayUs : Nat) (durationUs : Nat)
  | waitIdle (isBusyLow : Bool)
  | cmd (c : Command)
  | data (d : List Nat)
  deriving DecidableEq, Repr

/-- Width of the display. -/
def WIDTH : Nat := 122

/-- Height of the display. -/
def HEIGHT : Nat := 250

/-- Default background colour. -/
def DEFAULT_BACKGROUND_COLOR : Color := Color.White

/-- Busy-line polarity flag the driver passes to the transport. -/
def IS_BUSY_LOW : Bool := false

/-- Modelled from the spec: the geometry-derived frame-buffer byte length,
ceil(width*height/8) (buffer_len lives outside this source tree). -/
def buffer_len (width height : Nat) : Nat := (width * height + 7) / 8

/-- Modelled from the spec: the transport framer transmits one opcode byte in
a command phase. -/
def cmdEvents (c : Command) : List Event := [Event.cmd c]

/-- Modelled from the spec: the transport framer transmits the opcode byte and
then the payload bytes in a data phase. -/
def cmdWithDataEvents (c : Command) (d : List Nat) : List Event :=
  [Event.cmd c, Event.data d]

/-- Modelled from the spec: the reset pulse drives the reset line low for the
given duration, then high, then settles. -/
def resetEvents (initialDelayUs durationUs : Nat) : List Event :=
  [Event.reset initialDelayUs durationUs]

/-- Modelled from the spec: the transport polls the busy line until it reads
the configured idle level. -/
def waitUntilIdleEvents (isBusyLow : Bool) : List Event := [Event.waitIdle isBusyLow]

/-- Logical level of the busy line. -/
inductive Level where
  | low
  | high
  deriving DecidableEq, Repr

/-- Modelled from the spec: the idle level of the busy line as selected by the
polarity flag of waitUntilIdle (the busy line reads low when idle iff the
flag is true; otherwise idle is logical high, the busy-low convention). -/
def idleLevel (busyIsLowWhenIdle : Bool) : Level :=
  if busyIsLowWhenIdle then Level.low else Level.high

/-- Driver state: the configuration fields the source struct owns (the
interface handle itself carries no logical state in this model). -/
structure Epd2in13 where
  sleep_mode : DeepSleepMode
  background_color : Color
  refresh : RefreshLut
  deriving DecidableEq, Repr

/-- Busy-wait as the driver performs it: polls with IS_BUSY_LOW. -/
def wait_until_idle : List Event := waitUntilIdleEvents IS_BUSY_LOW

/-- set_driver_output: hardcodes payload 0xF9 0x00 0x00, ignoring its
argument. -/
def set_driver_output (output : DriverOutput) : List Event :=
  cmdWithDataEvents Command.DriverOutputControl [0xF9, 0x00, 0x00]

/-- set_data_entry_mode: hardcodes payload 0b00000011, ignoring the computed
mode byte built from its arguments. -/
def set_data_entry_mode (counter_incr_mode : DataEntryModeIncr)
    (counter_direction : DataEntryModeDir) : List Event :=
  cmdWithDataEvents Command.DataEntryModeSetting [0b00000011]

/-- set_ram_area: hardcodes the X window 0x00 0x0F and the Y window
0x00 0x00 0xF9 0x00, ignoring its coordinate arguments. -/
def set_ram_area (start_x start_y end_x end_y : Nat) : List Event :=
  cmdWithDataEvents Command.SetRamXAddressStartEndPosition [0x00, 0x0F] ++
  cmdWithDataEvents Command.SetRamYAddressStartEndPosition [0x00, 0x00, 0xF9, 0x00]

/-- set_ram_address_counters: waits idle, then hardcodes both counters to
0x00, ignoring its coordinate arguments. -/
def set_ram_address_counters (x y : Nat) : List Event :=
  wait_until_idle ++
  cmdWithDataEvents Command.SetRamXAddressCounter [0x00] ++
  cmdWithDataEvents Command.SetRamYAddressCounter [0x00]

/-- set_border_waveform: hardcodes payload 0x05, ignoring its argument. -/
def set_border_waveform (borderwaveform : BorderWaveForm) : List Event :=
  cmdWithDataEvents Command.BorderWaveformControl [0x05]

/-- set_display_update_control_2: hardcodes payload 0xF7, ignoring the built
value. -/
def set_display_update_control_2 (value : DisplayUpdateControl2) : List Event :=
  cmdWithDataEvents Command.DisplayUpdateControl2 [0xF7]

/-- set_sleep_mode: hardcodes payload 0x01, ignoring its mode argument. -/
def set_sleep_mode (mode : DeepSleepMode) : List Event :=
  cmdWithDataEvents Command.DeepSleepMode [0x01]

/-- The init sequence (InternalWiAdditions::init). -/
def init : List Event :=
  resetEvents 10000 10000 ++
  wait_until_idle ++
  cmdEvents Command.SwReset ++
  wait_until_idle ++
  set_driver_output { scan_is_linear := false, scan_g0_is_first := false,
                      scan_dir_incr := false, width := HEIGHT - 1 } ++
  set_data_entry_mode DataEntryModeIncr.XDecrYIncr DataEntryModeDir.XDir ++
  set_ram_area 0 0 (WIDTH - 1) (HEIGHT - 1) ++
  set_border_waveform { vbd := BorderWaveFormVbd.Gs,
                        fix_level := BorderWaveFormFixLevel.Vss,
                        gs_trans := BorderWaveFormGs.Lut3 } ++
  cmdWithDataEvents Command.DisplayUpdateControl1 [0x00, 0x80] ++
  cmdWithDataEvents Command.TemperatureSensorControlRead [0x80] ++
  set_ram_address_counters 0 0 ++
  wait_until_idle

/-- Construction: builds the state with Mode1 sleep depth, the default
background colour and the Full profile, then runs init. -/
def new : Epd2in13 × List Event :=
  ({ sleep_mode := DeepSleepMode.Mode1,
     background_color := DEFAULT_BACKGROUND_COLOR,
     refresh := RefreshLut.Full }, init)

/-- wake_up: runs init again. -/
def wake_up (s : Epd2in13) : Epd2in13 × List Event := (s, init)

/-- sleep: waits idle, sends display-update-control-2, master activation, and
the deep-sleep command with the stored mode passed to set_sleep_mode. -/
def sleep (s : Epd2in13) : Epd2in13 × List Event :=
  (s, wait_until_idle ++
      set_display_update_control_2
        (DisplayUpdateControl2.new.enable_analog.enable_clock.disable_analog.disable_clock) ++
      cmdEvents Command.MasterActivation ++
      set_sleep_mode s.sleep_mode)

/-- update_frame: asserts the buffer length first (a failed assertion aborts
with an empty trace, modelled as a none result), then re-runs init,
re-asserts the RAM window and counters, and streams the buffer. -/
def update_frame (s : Epd2in13) (buffer : List Nat) : Option Epd2in13 × List Event :=
  if buffer.length = buffer_len WIDTH HEIGHT then
    (some s,
      init ++
      set_ram_area 0 0 (WIDTH - 1) (HEIGHT - 1) ++
      set_ram_address_counters 0 0 ++
      cmdWithDataEvents Command.WriteRam buffer)
  else
    (none, [])

/-- update_partial_frame: asserts the sub-window length, then asserts false
unconditionally; both paths abort before any bus traffic. -/
def update_partial_frame (s : Epd2in13) (buffer : List Nat)
    (x y width height : Nat) : Option Epd2in13 × List Event :=
  if width * height / 8 = buffer.length then
    (none, [])
  else
    (none, [])

/-- display_frame: display-update-control-2, master activation, wait idle. -/
def display_frame (s : Epd2in13) : Epd2in13 × List Event :=
  (s, set_display_update_control_2
        (DisplayUpdateControl2.new.enable_clock.enable_analog.display.disable_analog.disable_clock) ++
      cmdEvents Command.MasterActivation ++
      wait_until_idle)

/-- update_and_display_frame: update_frame then display_frame. -/
def update_and_display_frame (s : Epd2in13) (buffer : List Nat) :
    Option Epd2in13 × List Event :=
  match update_frame s buffer with
  | (some s1, t1) => (some (display_frame s1).1, t1 ++ (display_frame s1).2)
  | (none, t1) => (none, t1)

/-- clear_frame: asserts false unconditionally; aborts with no bus traffic. -/
def clear_frame (s : Epd2in13) : Option Epd2in13 × List Event := (none, [])

/-- set_lut: selects the full-update table for Some(Full) or None and the
quick-update table for Some(Quick), then writes it to the LUT register. The
two waveform tables (constants.rs, outside this source tree) are abstracted
as parameters; the driver logic does not depend on their contents. -/
def set_lut (lutFullUpdate lutQuickUpdate : List Nat) (s : Epd2in13)
    (refresh_rate : Option RefreshLut) : List Event :=
  cmdWithDataEvents Command.WriteLutRegister
    (match refresh_rate with
     | some RefreshLut.Full => lutFullUpdate
     | none => lutFullUpdate
     | some RefreshLut.Quick => lutQuickUpdate)

/-- set_deep_sleep_mode: stores the requested sleep depth. -/
def set_deep_sleep_mode (s : Epd2in13) (mode : DeepSleepMode) : Epd2in13 :=
  { s with sleep_mode := mode }

/-- set_refresh: if the requested profile differs, store it and re-run init;
otherwise do nothing. -/
def set_refresh (s : Epd2in13) (refresh : RefreshLut) : Epd2in13 × List Event :=
  if s.refresh ≠ refresh then
    ({ s with refresh := refresh }, init)
  else
    (s, [])

/-- Projection of a trace to the command opcodes it carries. -/
def cmds (t : List Event) : List Command :=
  t.filterMap fun e =>
    match e with
    | Event.cmd c => some c
    | _ => none

/-- The state produced by construction. -/
def initialState : Epd2in13 := new.1

/-- The command order C2 claims verbatim: each command exactly once, in the
listed order (the reset pulse is not a command byte and busy-waits carry no
opcode, so neither appears in the command projection). -/
def claimedUpdateDisplayCmds : List Command :=
  [Command.SwReset, Command.DriverOutputControl, Command.DataEntryModeSetting,
   Command.SetRamXAddressStartEndPosition, Command.SetRamYAddressStartEndPosition,
   Command.BorderWaveformControl, Command.DisplayUpdateControl1,
   Command.TemperatureSensorControlRead, Command.SetRamXAddressCounter,
   Command.SetRamYAddressCounter, Command.WriteRam, Command.DisplayUpdateControl2,
   Command.MasterActivation]

/-- The command order the code actually issues for update_frame followed by
display_frame: the RAM window and counter commands appear a second time
between the init sequence and write-RAM. -/
def actualUpdateDisplayCmds : List Command :=
  [Command.SwReset, Command.DriverOutputControl, Command.DataEntryModeSetting,
   Command.SetRamXAddressStartEndPosition, Command.SetRamYAddressStartEndPosition,
   Command.BorderWaveformControl, Command.DisplayUpdateControl1,
   Command.TemperatureSensorControlRead, Command.SetRamXAddressCounter,
   Command.SetRamYAddressCounter,
   Command.SetRamXAddressStartEndPosition, Command.SetRamYAddressStartEndPosition,
   Command.SetRamXAddressCounter, Command.SetRamYAddressCounter,
   Command.WriteRam, Command.DisplayUpdateControl2, Command.MasterActivation]

/-- The full event trace update_frame followed by display_frame emits for a
valid buffer. -/
def fullUpdateDisplayTrace (buffer : List Nat) : List Event :=
  [Event.reset 10000 10000,
   Event.waitIdle false,
   Event.cmd Command.SwReset,
   Event.waitIdle false,
   Event.cmd Command.DriverOutputControl, Event.data [0xF9, 0x00, 0x00],
   Event.cmd Command.DataEntryModeSetting, Event.data [0x03],
   Event.cmd Command.SetRamXAddressStartEndPosition, Event.data [0x00, 0x0F],
   Event.cmd Command.SetRamYAddressStartEndPosition, Event.data [0x00, 0x00, 0xF9, 0x00],
   Event.cmd Command.BorderWaveformControl, Event.data [0x05],
   Event.cmd Command.DisplayUpdateControl1, Event.data [0x00, 0x80],
   Event.cmd Command.TemperatureSensorControlRead, Event.data [0x80],
   Event.waitIdle false,
   Event.cmd Command.SetRamXAddressCounter, Event.data [0x00],
   Event.cmd Command.SetRamYAddressCounter, Event.data [0x00],
   Event.waitIdle false,
   Event.cmd Command.SetRamXAddressStartEndPosition, Event.data [0x00, 0x0F],
   Event.cmd Command.SetRamYAddressStartEndPosition, Event.data [0x00, 0x00, 0xF9, 0x00],
   Event.waitIdle false,
   Event.cmd Command.SetRamXAddressCounter, Event.data [0x00],
   Event.cmd Command.SetRamYAddressCounter, Event.data [0x00],
   Event.cmd Command.WriteRam, Event.data buffer,
   Event.cmd Command.DisplayUpdateControl2, Event.data [0xF7],
   Event.cmd Command.MasterActivation,
   Event.waitIdle false]

/-- Helper: the command projection of the update-and-display trace, for any
buffer of the valid length. -/
theorem update_display_cmds_eq (s : Epd2in13) (buffer : List Nat)
    (h : buffer.length = buffer_len WIDTH HEIGHT) :
    cmds ((update_and_display_frame s buffer).2) = actualUpdateDisplayCmds := by
  simp [update_and_display_frame, update_frame, h, display_frame, init, wait_until_idle,
        set_driver_output, set_data_entry_mode, set_ram_area, set_border_waveform,
        set_ram_address_counters, set_display_update_control_2, set_sleep_mode,
        cmdEvents, cmdWithDataEvents, resetEvents, waitUntilIdleEvents, IS_BUSY_LOW,
        cmds, actualUpdateDisplayCmds]

/-- C1: for every buffer whose length differs from the geometry-derived byte
length buffer_len WIDTH HEIGHT = ceil(122*250/8) = 3813, update_frame rejects
the call (its leading assertion fires) and no command or data event reaches
the transport. -/
theorem update_frame_rejects_bad_length (s : Epd2in13) (buffer : List Nat)
    (h : buffer.length ≠ buffer_len WIDTH HEIGHT) :
    (update_frame s buffer).1 = none ∧ (update_frame s buffer).2 = [] := by
  simp [update_frame, h]

/-- C1 witness: the empty buffer has the wrong length and is rejected with an
empty trace. -/
theorem update_frame_rejects_bad_length_witness :
    List.length ([] : List Nat) ≠ buffer_len WIDTH HEIGHT ∧
    ((update_frame initialState []).1 = none ∧ (update_frame initialState []).2 = []) :=
  ⟨by decide, update_frame_rejects_bad_length initialState [] (by decide)⟩

/-- C2 counterexample: at a concrete valid-length buffer, the command order
issued by update_frame followed by display_frame is not the claimed
one-occurrence-each order: the RAM window and counter commands are issued a
second time between the init sequence and write-RAM. -/
theorem update_display_exact_order_refuted :
    cmds ((update_and_display_frame initialState (List.replicate 3813 0)).2) ≠
      claimedUpdateDisplayCmds := by
  rw [update_display_cmds_eq initialState (List.replicate 3813 0)
        (by rw [List.length_replicate]; decide)]
  decide

/-- C2 amended: for every buffer of the valid length, update_frame followed by
display_frame emits exactly: reset pulse, busy-wait, software-reset,
busy-wait, driver-output-control, data-entry-mode, RAM-X-window,
RAM-Y-window, border-waveform, display-update-control-1,
temperature-sensor-control, busy-wait, RAM-X-counter, RAM-Y-counter,
busy-wait, then re-asserted RAM-X-window and RAM-Y-window, busy-wait,
re-asserted RAM-X-counter and RAM-Y-counter, write-RAM with the caller's
buffer, display-update-control-2 (payload 0xF7), master-activation,
busy-wait. -/
theorem update_and_display_trace (s : Epd2in13) (buffer : List Nat)
    (h : buffer.length = buffer_len WIDTH HEIGHT) :
    (update_and_display_frame s buffer).2 = fullUpdateDisplayTrace buffer := by
  simp [update_and_display_frame, update_frame, h, display_frame, init, wait_until_idle,
        set_driver_output, set_data_entry_mode, set_ram_area, set_border_waveform,
        set_ram_address_counters, set_display_update_control_2,
        cmdEvents, cmdWithDataEvents, resetEvents, waitUntilIdleEvents, IS_BUSY_LOW,
        fullUpdateDisplayTrace]

/-- C2 amended witness: the trace equation at a concrete valid buffer. -/
theorem update_and_display_trace_witness :
    (List.replicate 3813 0).length = buffer_len WIDTH HEIGHT ∧
    (update_and_display_frame initialState (List.replicate 3813 0)).2 =
      fullUpdateDisplayTrace (List.replicate 3813 0) :=
  ⟨by rw [List.length_replicate]; decide,
   update_and_display_trace initialState (List.replicate 3813 0)
     (by rw [List.length_replicate]; decide)⟩

/-- C3 counterexample: starting from the freshly constructed state (profile
Full), set_refresh to Quick issues no write-LUT-register command at all, so
it does not transmit the Quick waveform table. -/
theorem set_refresh_writes_no_lut :
    Command.WriteLutRegister ∉ cmds ((set_refresh initialState RefreshLut.Quick).2) := by
  decide

/-- C3 amended: if the current refresh profile is Full, set_refresh(Quick)
updates the stored profile to Quick and re-runs the full init sequence; no
write-LUT-register command (hence no waveform-table byte) is transmitted by
set_refresh itself. -/
theorem set_refresh_full_to_quick (s : Epd2in13) (h : s.refresh = RefreshLut.Full) :
    ((set_refresh s RefreshLut.Quick).1).refresh = RefreshLut.Quick ∧
    (set_refresh s RefreshLut.Quick).2 = init ∧
    Command.WriteLutRegister ∉ cmds ((set_refresh s RefreshLut.Quick).2) := by
  have hne : s.refresh ≠ RefreshLut.Quick := by
    rw [h]
    intro hc
    exact RefreshLut.noConfusion hc
  rw [set_refresh, if_pos hne]
  refine ⟨rfl, rfl, ?_⟩
  show Command.WriteLutRegister ∉ cmds init
  decide

/-- C3 amended witness: at the freshly constructed state. -/
theorem set_refresh_full_to_quick_witness :
    initialState.refresh = RefreshLut.Full ∧
    (((set_refresh initialState RefreshLut.Quick).1).refresh = RefreshLut.Quick ∧
     (set_refresh initialState RefreshLut.Quick).2 = init ∧
     Command.WriteLutRegister ∉ cmds ((set_refresh initialState RefreshLut.Quick).2)) :=
  ⟨rfl, set_refresh_full_to_quick initialState rfl⟩

/-- C4 (code-bug evidence): sleep emits the same trace whichever sleep depth
was stored via set_deep_sleep_mode, and its final deep-sleep payload is the
fixed byte 0x01 — set_sleep_mode ignores the mode argument that sleep passes
it, so the stored depth never reaches the bus. -/
theorem sleep_payload_ignores_stored_depth :
    (sleep (set_deep_sleep_mode initialState DeepSleepMode.Normal)).2 =
      (sleep (set_deep_sleep_mode initialState DeepSleepMode.Mode1)).2 ∧
    ((sleep (set_deep_sleep_mode initialState DeepSleepMode.Normal)).2).getLast? =
      some (Event.data [0x01]) :=
  ⟨rfl, rfl⟩

/-- C5: update_partial_frame and clear_frame fail their precondition checks
for every input — update_partial_frame hits an unconditional false assertion
after its length assertion, clear_frame asserts false immediately — and emit
nothing on the bus. -/
theorem unsupported_ops_reject (s : Epd2in13) (buffer : List Nat) (x y w h : Nat) :
    update_partial_frame s buffer x y w h = (none, []) ∧ clear_frame s = (none, []) := by
  refine ⟨?_, rfl⟩
  rw [update_partial_frame]
  split
  · rfl
  · rfl

/-- C6: the driver's busy-wait polls with IS_BUSY_LOW = false, whose
configured idle level is logical high, i.e. the busy-low convention. -/
theorem busy_idle_level_is_high :
    wait_until_idle = [Event.waitIdle IS_BUSY_LOW] ∧ idleLevel IS_BUSY_LOW = Level.high :=
  ⟨rfl, rfl⟩

/-- C8: calling set_refresh twice with the same profile is idempotent — the
second call transmits nothing and leaves the stored state unchanged. -/
theorem set_refresh_idempotent (s : Epd2in13) (r : RefreshLut) :
    (set_refresh ((set_refresh s r).1) r).2 = [] ∧
    (set_refresh ((set_refresh s r).1) r).1 = (set_refresh s r).1 := by
  by_cases h : s.refresh = r
  · simp [set_refresh, h]
  · simp [set_refresh, h]

/-- C9: wake_up emits exactly the event sequence that construction emits:
both run the init sequence, whose bytes depend only on fixed constants. -/
theorem wake_up_trace_eq_new_trace (s : Epd2in13) : (wake_up s).2 = new.2 := rfl

/-- C10: set_lut with no refresh-rate argument emits exactly what set_lut
with the Full profile emits — both write the full-update waveform table to
the LUT register — whatever the table contents are. -/
theorem set_lut_none_eq_full (lutFullUpdate lutQuickUpdate : List Nat) (s : Epd2in13) :
    set_lut lutFullUpdate lutQuickUpdate s none =
      set_lut lutFullUpdate lutQuickUpdate s (some RefreshLut.Full) := rfl

end EpdWaveshare
